import Mathlib

/-!
# Hydro judge core — shallow embedding

A Lean model of `src/packages/hydrojudge/src/judge/default.ts`: the per-case
judging function `judgeCase` (sandbox run classification, checker dispatch,
file cleanup, bounded retry, one-shot failure analysis) and the `judge`
entry point (compile stage wired into the flow engine).

External collaborators (sandbox, checker implementations, flow engine,
signal table) are not under `src/`; they enter the model either as oracle
parameters (sandbox responses, checker functions, compile results) or as
definitions modelled from the specification, marked as such in their doc
comments.
-/

namespace Hydro

/-- Verdict statuses.  The named constructors are the ones `judgeCase`
inspects or produces (`STATUS` from `@hydrooj/utils/lib/status`); every
other member of the enumeration is represented by `other n` and is only
ever passed through. -/
inductive STATUS where
  | STATUS_ACCEPTED
  | STATUS_WRONG_ANSWER
  | STATUS_TIME_LIMIT_EXCEEDED
  | STATUS_MEMORY_LIMIT_EXCEEDED
  | STATUS_RUNTIME_ERROR
  | STATUS_SYSTEM_ERROR
  | other (n : Nat)
  deriving DecidableEq, Repr

/-- A message attached to a case result: either a plain string (`''`,
a signal-table entry, or a checker message) or the templated object
`{ message, params }` built for nonzero exit codes. -/
inductive Message where
  | str (s : String)
  | templated (msg : String) (params : List Int)
  deriving DecidableEq, Repr

/-- A content reference, as the judge passes them around: a test-data
source path, a sandbox file id, or inline content. -/
inductive ContentRef where
  | src (s : String)
  | fileId (f : String)
  | content (s : String)
  deriving DecidableEq, Repr

/-- The `NormalizedCase` of `../utils`: one test case with its limits.
`time` is milliseconds, `memory` kilobytes, `score` the case's points. -/
structure NormalizedCase where
  id : Nat
  input : String
  output : String
  time : Nat
  memory : Nat
  score : Nat
  deriving DecidableEq, Repr

/-- The sandbox response (`RunResult`): raw status, optional exit code,
whether the process was signalled, elapsed time (ms), memory (bytes) and
the map of cached output files (association list name ↦ fileId). -/
structure RunResult where
  status : STATUS
  code : Option Int
  signalled : Bool
  time : Nat
  memory : Nat
  fileIds : List (String × String)
  deriving DecidableEq, Repr

/-- A compiled executable handle: sandbox execute line plus copy-in file
set, as produced by the compile stage. -/
structure Executable where
  execute : String
  copyIn : Option (List (String × String))
  deriving DecidableEq, Repr

/-- The judge configuration fields `judgeCase`/`judge` read
(`ctx.config`). -/
structure Config where
  filename : String
  checker : String
  checker_type : String
  detail : Option Bool
  deriving DecidableEq, Repr

/-- Per-language resource ceilings, from `ctx.session.getLang(ctx.lang)`. -/
structure LangConfig where
  address_space_limit : Option Nat
  process_limit : Option Nat
  deriving DecidableEq, Repr

/-- The read-only parts of the judge context (`ctx`): everything
`judgeCase` reads but never writes.  The mutable parts (`rerun`,
`analysis`) live in `JState`. -/
structure StaticCtx where
  lang : String
  langConfig : LangConfig
  execute : Executable
  checker : Executable
  config : Config
  rejudged : Bool
  env : List (String × String)
  input : String
  deriving Repr

/-- The mutable, submission-scoped state threaded through case
invocations: the remaining `rerun` budget and the `analysis` flag. -/
structure JState where
  rerun : Nat
  analysis : Bool
  deriving DecidableEq, Repr

/-- The record `judgeCase` returns per case. -/
structure CaseResult where
  id : Nat
  subtaskId : Nat
  status : STATUS
  score : Nat
  time : Nat
  memory : Nat
  message : Message
  deriving DecidableEq, Repr

/-- The argument object handed to a checker. -/
structure CheckerInput where
  execute : String
  copyIn : List (String × String)
  input : ContentRef
  output : ContentRef
  user_stdout : ContentRef
  user_stderr : ContentRef
  score : Nat
  detail : Bool
  env : List (String × String)
  deriving DecidableEq, Repr

/-- What a checker returns: `{ status, score, message }`. -/
structure CheckerResult where
  status : STATUS
  score : Nat
  message : Message
  deriving DecidableEq, Repr

/-- The side effects observable from one `judgeCase` invocation:
checker invocations (checker-type key and argument object, in order),
file ids whose deletion was attempted (in order, with the outcome of
each attempt, which `Promise.allSettled` swallows), and the number of
`runAnalysis` calls. -/
structure Effects where
  checkerCalls : List (String × CheckerInput)
  deleted : List (String × Bool)
  analysisCalls : Nat
  deriving DecidableEq, Repr

/-- The execution request built at the top of `judgeCase` and submitted
through `runQueued`. -/
structure RunRequest where
  stdin : ContentRef
  copyIn : Option (List (String × String))
  filename : String
  time : Nat
  memory : Nat
  cacheStdoutAndStderr : Bool
  addressSpaceLimit : Option Nat
  processLimit : Option Nat
  deriving DecidableEq, Repr

/-- Modelled from the spec: the Signal Table (`../signals`, not under
`src/`) — "a fixed mapping from signal number (0–31) to a short
descriptive string; queried read-only", with entry 11 the
segmentation-fault text. -/
def signals (code : Int) : String :=
  if code = 1 then "Hangup"
  else if code = 2 then "Interrupt"
  else if code = 3 then "Quit"
  else if code = 4 then "Illegal instruction"
  else if code = 5 then "Trace/breakpoint trap"
  else if code = 6 then "Aborted"
  else if code = 7 then "Bus error"
  else if code = 8 then "Floating point exception"
  else if code = 9 then "Killed"
  else if code = 10 then "User defined signal 1"
  else if code = 11 then "Segmentation fault"
  else if code = 12 then "User defined signal 2"
  else if code = 13 then "Broken pipe"
  else if code = 14 then "Alarm clock"
  else if code = 15 then "Terminated"
  else if code = 16 then "Stack fault"
  else if code = 17 then "Child exited"
  else if code = 18 then "Continued"
  else if code = 19 then "Stopped (signal)"
  else if code = 20 then "Stopped"
  else if code = 21 then "Stopped (tty input)"
  else if code = 22 then "Stopped (tty output)"
  else if code = 23 then "Urgent I/O condition"
  else if code = 24 then "CPU time limit exceeded"
  else if code = 25 then "File size limit exceeded"
  else if code = 26 then "Virtual timer expired"
  else if code = 27 then "Profiling timer expired"
  else if code = 28 then "Window changed"
  else if code = 29 then "I/O possible"
  else if code = 30 then "Power failure"
  else if code = 31 then "Bad system call"
  else ""

/-- JavaScript truthiness of the optional exit code `code`: the guard
`status === STATUS_RUNTIME_ERROR && code` is true only for a present,
nonzero code. -/
def codeTruthy : Option Int → Bool
  | some v => v ≠ 0
  | none => false

/-- First lookup of a key in an association list (JS property access on
the `fileIds` object). -/
def lookupFile (m : List (String × String)) (k : String) : Option String :=
  (m.find? (fun p => p.1 = k)).map Prod.snd

/-- The expression `fileIds.stdout ? { fileId: fileIds.stdout } : { content: '' }` —
a present, nonempty (truthy) file id becomes a fileId reference,
anything else the empty content. -/
def contentOrFile (o : Option String) : ContentRef :=
  match o with
  | some f => if f = "" then ContentRef.content "" else ContentRef.fileId f
  | none => ContentRef.content ""

/-- The checker argument object built on lines 37–47 of `default.ts`. -/
def mkCheckerInput (ctx : StaticCtx) (c : NormalizedCase) (res : RunResult) :
    CheckerInput :=
  { execute := ctx.checker.execute
    copyIn := ctx.checker.copyIn.getD []
    input := ContentRef.src c.input
    output := ContentRef.src c.output
    user_stdout := contentOrFile (lookupFile res.fileIds "stdout")
    user_stderr := contentOrFile (lookupFile res.fileIds "stderr")
    score := c.score
    detail := ctx.config.detail.getD true
    env := ctx.env ++ [("HYDRO_TESTCASE", toString c.id)] }

/-- The execution request built on lines 12–24 of `default.ts`. -/
def mkRequest (ctx : StaticCtx) (c : NormalizedCase) : RunRequest :=
  { stdin := ContentRef.src c.input
    copyIn := ctx.execute.copyIn
    filename := ctx.config.filename
    time := c.time
    memory := c.memory
    cacheStdoutAndStderr := true
    addressSpaceLimit := ctx.langConfig.address_space_limit
    processLimit := ctx.langConfig.process_limit }

/-- The classification block of `judgeCase` (lines 28–52 of
`default.ts`): starting from `status = res.status`, `message = ''`,
`score = 0`, an ACCEPTED run is downgraded on a time- or memory-limit
violation, otherwise handed to the checker selected by
`ctx.config.checker_type`; a RUNTIME_ERROR with truthy exit code gets a
signal-table or templated message.  Returns the resulting
(status, score, message) and the list of checker invocations made. -/
def classify (chk : String → CheckerInput → CheckerResult) (ctx : StaticCtx)
    (c : NormalizedCase) (res : RunResult) :
    STATUS × Nat × Message × List (String × CheckerInput) :=
  if res.status = STATUS.STATUS_ACCEPTED then
    if res.time > c.time then
      (STATUS.STATUS_TIME_LIMIT_EXCEEDED, 0, Message.str "", [])
    else if res.memory > c.memory * 1024 then
      (STATUS.STATUS_MEMORY_LIMIT_EXCEEDED, 0, Message.str "", [])
    else
      let arg := mkCheckerInput ctx c res
      let r := chk ctx.config.checker_type arg
      (r.status, r.score, r.message, [(ctx.config.checker_type, arg)])
  else if res.status = STATUS.STATUS_RUNTIME_ERROR ∧ codeTruthy res.code then
    let v := res.code.getD 0
    if v < 32 ∧ res.signalled then
      (res.status, 0, Message.str (signals v), [])
    else
      (res.status, 0, Message.templated "Your program returned {0}." [v], [])
  else
    (res.status, 0, Message.str "", [])

/-- The retry guard on line 54 of `default.ts`:
`runner && ctx.rerun && c.time <= 5000 && status === STATUS_TIME_LIMIT_EXCEEDED`
(`ctx.rerun` is a nonnegative counter, truthy iff nonzero). -/
def retryCond (hasRunner : Bool) (st : JState) (c : NormalizedCase)
    (status : STATUS) : Bool :=
  hasRunner && st.rerun ≠ 0 && c.time ≤ 5000
    && status = STATUS.STATUS_TIME_LIMIT_EXCEEDED

/-- The analysis guard on line 58 of `default.ts`:
`!ctx.request.rejudged && !ctx.analysis && [WRONG_ANSWER, RUNTIME_ERROR].includes(status)`. -/
def analysisCond (ctx : StaticCtx) (st : JState) (status : STATUS) : Bool :=
  !ctx.rejudged && !st.analysis
    && (status = STATUS.STATUS_WRONG_ANSWER
        ∨ status = STATUS.STATUS_RUNTIME_ERROR)

/-- The `judgeCase` function of `default.ts`, one invocation including
any retries it performs.  Oracles: `chk` is the checker registry,
`sandbox` gives the `RunResult` of the n-th sandbox execution of this
case's request (attempt counter `att`), `delOk` tells whether deleting a
given file id succeeds (its outcome is swallowed by
`Promise.allSettled`, so it influences nothing), and `hasRunner` says
whether a `runner` callback was supplied.  Modelled from the spec where
the flow engine (`../flow`, not under `src/`) is involved: the `runner`
callback is "the same callable, passed in so the function can
recursively retry itself", so the retry on line 56 is the recursive
call on the next attempt.  Returns the `CaseResult`, the final mutable
state, and the observable side effects. -/
def judgeCase (chk : String → CheckerInput → CheckerResult)
    (sandbox : RunRequest → Nat → RunResult) (delOk : String → Bool)
    (hasRunner : Bool) (ctx : StaticCtx) (c : NormalizedCase)
    (subtaskId : Nat) (att : Nat) (st : JState) :
    CaseResult × JState × Effects :=
  let res := sandbox (mkRequest ctx c) att
  let cl := classify chk ctx c res
  let status := cl.1
  let score := cl.2.1
  let message := cl.2.2.1
  let calls := cl.2.2.2
  let deletedHere := (res.fileIds.map Prod.snd).map
    (fun id => (id, delOk id))
  if h : retryCond hasRunner st c status then
    let st' : JState := { st with rerun := st.rerun - 1 }
    let rec_ := judgeCase chk sandbox delOk hasRunner ctx c subtaskId
      (att + 1) st'
    (rec_.1, rec_.2.1,
      { checkerCalls := calls ++ rec_.2.2.checkerCalls
        deleted := deletedHere ++ rec_.2.2.deleted
        analysisCalls := rec_.2.2.analysisCalls })
  else
    let fire := analysisCond ctx st status
    ({ id := c.id, subtaskId := subtaskId, status := status,
       score := score, time := res.time, memory := res.memory,
       message := message },
     { st with analysis := st.analysis || fire },
     { checkerCalls := calls, deleted := deletedHere,
       analysisCalls := if fire then 1 else 0 })
termination_by st.rerun
decreasing_by
  simp only [retryCond, Bool.and_eq_true, decide_eq_true_eq] at h
  omega

/-- One Case Runner invocation as the flow engine issues it: the case,
its subtask id, and the per-invocation oracles.  The checker registry
and the judge context are fixed per submission. -/
structure Invocation where
  c : NormalizedCase
  subtaskId : Nat
  sandbox : RunRequest → Nat → RunResult
  delOk : String → Bool
  hasRunner : Bool

/-- A sequence of Case Runner invocations for one submission, threading
the mutable submission state through them (the flow engine invokes the
callback once per scheduled case).  Returns the per-invocation results
with their effects, and the final state. -/
def runSeq (chk : String → CheckerInput → CheckerResult) (ctx : StaticCtx) :
    List Invocation → JState → List (CaseResult × Effects) × JState
  | [], st => ([], st)
  | i :: rest, st =>
    let r := judgeCase chk i.sandbox i.delOk i.hasRunner ctx i.c i.subtaskId 0 st
    let t := runSeq chk ctx rest r.2.1
    ((r.1, r.2.2) :: t.1, t.2)

/-- Total number of `runAnalysis` calls across a list of invocation
results. -/
def totalAnalysis (rs : List (CaseResult × Effects)) : Nat :=
  (rs.map (fun r => r.2.analysisCalls)).sum

/-- The per-submission inputs `judge` starts from, before the compile
stage fills in `ctx.execute` and `ctx.checker`. -/
structure JudgeInit where
  lang : String
  code : String
  langConfig : LangConfig
  config : Config
  rejudged : Bool
  env : List (String × String)
  input : String

/-- The judge context once the compile stage has stored the submission
executable in `ctx.execute` and the checker executable in
`ctx.checker`. -/
def mkCtx (init : JudgeInit) (pair : Executable × Executable) : StaticCtx :=
  { lang := init.lang, langConfig := init.langConfig,
    execute := pair.1, checker := pair.2, config := init.config,
    rejudged := init.rejudged, env := init.env, input := init.input }

/-- The compile stage of `judge` (lines 75–80 of `default.ts`):
`Promise.all([ctx.compile(ctx.lang, ctx.code),
ctx.compileLocalFile('checker', ctx.config.checker,
ctx.config.checker_type)])`; it succeeds with the pair of executables
iff both compilations succeed. -/
def compileStage
    (compileFn : String → String → Except String Executable)
    (compileLocalFile : String → String → String → Except String Executable)
    (init : JudgeInit) : Except String (Executable × Executable) :=
  match compileFn init.lang init.code,
      compileLocalFile "checker" init.config.checker
        init.config.checker_type with
  | Except.ok e, Except.ok k => Except.ok (e, k)
  | Except.error m, _ => Except.error m
  | _, Except.error m => Except.error m

/-- Modelled from the spec: the flow engine `runFlow` (`../flow`, not
under `src/`) — "the compile stage concurrently produces two sandboxed
executables ... both must succeed before any case runs", after which it
"invokes the Case Runner once per test case", the Case Runner being
"registered as the case-execution callback for every subtask/case the
flow engine schedules".  On compile failure no case runs and the
failure propagates. -/
def runFlow (compileRes : Except String (Executable × Executable))
    (caseCb : Executable × Executable → List Invocation → JState →
      List (CaseResult × Effects) × JState)
    (invs : List Invocation) (st : JState) :
    Except String (List (CaseResult × Effects) × JState) :=
  match compileRes with
  | Except.error m => Except.error m
  | Except.ok pair => Except.ok (caseCb pair invs st)

/-- The `judge` entry point (lines 74–82 of `default.ts`): run the flow
with the compile stage and `judgeCase` as the per-case callback. -/
def judge (compileFn : String → String → Except String Executable)
    (compileLocalFile : String → String → String → Except String Executable)
    (chk : String → CheckerInput → CheckerResult) (init : JudgeInit)
    (invs : List Invocation) (st : JState) :
    Except String (List (CaseResult × Effects) × JState) :=
  runFlow (compileStage compileFn compileLocalFile init)
    (fun pair => runSeq chk (mkCtx init pair)) invs st

/-- The deletion attempts accumulated over `k` consecutive attempts
starting at attempt `att`: each attempt contributes every value of its
response's `fileIds` map exactly once, in order. -/
def deletedOfAttempts (sandbox : RunRequest → Nat → RunResult)
    (delOk : String → Bool) (req : RunRequest) :
    Nat → Nat → List (String × Bool)
  | _, 0 => []
  | att, k + 1 =>
    ((sandbox req att).fileIds.map Prod.snd).map (fun id => (id, delOk id))
      ++ deletedOfAttempts sandbox delOk req (att + 1) k

theorem judgeCase_not_retry (chk : String → CheckerInput → CheckerResult)
    (sandbox : RunRequest → Nat → RunResult) (delOk : String → Bool)
    (hasRunner : Bool) (ctx : StaticCtx) (c : NormalizedCase)
    (subId att : Nat) (st : JState)
    (h : retryCond hasRunner st c
      (classify chk ctx c (sandbox (mkRequest ctx c) att)).1 = false) :
    judgeCase chk sandbox delOk hasRunner ctx c subId att st =
      (let res := sandbox (mkRequest ctx c) att
       let cl := classify chk ctx c res
       let fire := analysisCond ctx st cl.1
       ({ id := c.id, subtaskId := subId, status := cl.1, score := cl.2.1,
          time := res.time, memory := res.memory, message := cl.2.2.1 },
        { st with analysis := st.analysis || fire },
        { checkerCalls := cl.2.2.2,
          deleted := (res.fileIds.map Prod.snd).map (fun id => (id, delOk id)),
          analysisCalls := if fire then 1 else 0 })) := by
  rw [judgeCase]
  simp only [h]
  rfl

theorem judgeCase_retry (chk : String → CheckerInput → CheckerResult)
    (sandbox : RunRequest → Nat → RunResult) (delOk : String → Bool)
    (hasRunner : Bool) (ctx : StaticCtx) (c : NormalizedCase)
    (subId att : Nat) (st : JState)
    (h : retryCond hasRunner st c
      (classify chk ctx c (sandbox (mkRequest ctx c) att)).1 = true) :
    judgeCase chk sandbox delOk hasRunner ctx c subId att st =
      (let res := sandbox (mkRequest ctx c) att
       let cl := classify chk ctx c res
       let rec_ := judgeCase chk sandbox delOk hasRunner ctx c subId
         (att + 1) ⟨st.rerun - 1, st.analysis⟩
       (rec_.1, rec_.2.1,
        { checkerCalls := cl.2.2.2 ++ rec_.2.2.checkerCalls,
          deleted := (res.fileIds.map Prod.snd).map (fun id => (id, delOk id))
            ++ rec_.2.2.deleted,
          analysisCalls := rec_.2.2.analysisCalls })) := by
  rw [judgeCase]
  simp only [h]
  rfl

theorem judgeCase_analysis_aux (chk : String → CheckerInput → CheckerResult)
    (sandbox : RunRequest → Nat → RunResult) (delOk : String → Bool)
    (hasRunner : Bool) (ctx : StaticCtx) (c : NormalizedCase)
    (subId : Nat) :
    ∀ (n att : Nat) (st : JState), st.rerun ≤ n →
      (judgeCase chk sandbox delOk hasRunner ctx c subId att st).2.2.analysisCalls
        = (if analysisCond ctx st
            (judgeCase chk sandbox delOk hasRunner ctx c subId att st).1.status
           then 1 else 0)
      ∧ (judgeCase chk sandbox delOk hasRunner ctx c subId att st).2.1.analysis
        = (st.analysis ||
            ((judgeCase chk sandbox delOk hasRunner ctx c subId att st).2.2.analysisCalls
              ≠ 0)) := by
  intro n
  induction n with
  | zero =>
    intro att st hst
    have hr0 : st.rerun = 0 := Nat.le_zero.mp hst
    have hno : retryCond hasRunner st c
        (classify chk ctx c (sandbox (mkRequest ctx c) att)).1 = false := by
      simp [retryCond, hr0]
    rw [judgeCase_not_retry chk sandbox delOk hasRunner ctx c subId att st hno]
    by_cases hfire : analysisCond ctx st
        (classify chk ctx c (sandbox (mkRequest ctx c) att)).1 = true
    · simp [hfire]
    · simp only [Bool.not_eq_true] at hfire
      simp [hfire]
  | succ n ih =>
    intro att st hst
    by_cases h : retryCond hasRunner st c
        (classify chk ctx c (sandbox (mkRequest ctx c) att)).1 = true
    · rw [judgeCase_retry chk sandbox delOk hasRunner ctx c subId att st h]
      have hpos : st.rerun ≠ 0 := by
        simp only [retryCond, Bool.and_eq_true, decide_eq_true_eq] at h
        exact h.1.1.2
      have hle : (JState.mk (st.rerun - 1) st.analysis).rerun ≤ n := by
        simp only []
        omega
      have hrec := ih (att + 1) ⟨st.rerun - 1, st.analysis⟩ hle
      simpa [analysisCond] using hrec
    · simp only [Bool.not_eq_true] at h
      rw [judgeCase_not_retry chk sandbox delOk hasRunner ctx c subId att st h]
      by_cases hfire : analysisCond ctx st
          (classify chk ctx c (sandbox (mkRequest ctx c) att)).1 = true
      · simp [hfire]
      · simp only [Bool.not_eq_true] at hfire
        simp [hfire]

theorem judgeCase_deleted_aux (chk : String → CheckerInput → CheckerResult)
    (sandbox : RunRequest → Nat → RunResult) (delOk : String → Bool)
    (hasRunner : Bool) (ctx : StaticCtx) (c : NormalizedCase)
    (subId : Nat) :
    ∀ (n att : Nat) (st : JState), st.rerun ≤ n →
      ∃ k, 0 < k ∧
        (judgeCase chk sandbox delOk hasRunner ctx c subId att st).2.2.deleted
          = deletedOfAttempts sandbox delOk (mkRequest ctx c) att k := by
  intro n
  induction n with
  | zero =>
    intro att st hst
    have hr0 : st.rerun = 0 := Nat.le_zero.mp hst
    have hno : retryCond hasRunner st c
        (classify chk ctx c (sandbox (mkRequest ctx c) att)).1 = false := by
      simp [retryCond, hr0]
    refine ⟨1, Nat.one_pos, ?_⟩
    rw [judgeCase_not_retry chk sandbox delOk hasRunner ctx c subId att st hno]
    simp [deletedOfAttempts]
  | succ n ih =>
    intro att st hst
    by_cases h : retryCond hasRunner st c
        (classify chk ctx c (sandbox (mkRequest ctx c) att)).1 = true
    · have hpos : st.rerun ≠ 0 := by
        simp only [retryCond, Bool.and_eq_true, decide_eq_true_eq] at h
        exact h.1.1.2
      have hle : (JState.mk (st.rerun - 1) st.analysis).rerun ≤ n := by
        simp only []
        omega
      obtain ⟨k, hk, hdel⟩ := ih (att + 1) ⟨st.rerun - 1, st.analysis⟩ hle
      refine ⟨k + 1, Nat.succ_pos k, ?_⟩
      rw [judgeCase_retry chk sandbox delOk hasRunner ctx c subId att st h]
      simp [deletedOfAttempts, hdel]
    · simp only [Bool.not_eq_true] at h
      refine ⟨1, Nat.one_pos, ?_⟩
      rw [judgeCase_not_retry chk sandbox delOk hasRunner ctx c subId att st h]
      simp [deletedOfAttempts]

theorem judgeCase_delOk_aux (chk : String → CheckerInput → CheckerResult)
    (sandbox : RunRequest → Nat → RunResult) (hasRunner : Bool)
    (ctx : StaticCtx) (c : NormalizedCase) (subId : Nat) :
    ∀ (n att : Nat) (st : JState), st.rerun ≤ n →
      ∀ (delOk delOk2 : String → Bool),
        (judgeCase chk sandbox delOk hasRunner ctx c subId att st).1
          = (judgeCase chk sandbox delOk2 hasRunner ctx c subId att st).1
        ∧ (judgeCase chk sandbox delOk hasRunner ctx c subId att st).2.1
          = (judgeCase chk sandbox delOk2 hasRunner ctx c subId att st).2.1
        ∧ (judgeCase chk sandbox delOk hasRunner ctx c subId att st).2.2.checkerCalls
          = (judgeCase chk sandbox delOk2 hasRunner ctx c subId att st).2.2.checkerCalls
        ∧ (judgeCase chk sandbox delOk hasRunner ctx c subId att st).2.2.analysisCalls
          = (judgeCase chk sandbox delOk2 hasRunner ctx c subId att st).2.2.analysisCalls
        ∧ (judgeCase chk sandbox delOk hasRunner ctx c subId att st).2.2.deleted.map Prod.fst
          = (judgeCase chk sandbox delOk2 hasRunner ctx c subId att st).2.2.deleted.map
              Prod.fst := by
  intro n
  induction n with
  | zero =>
    intro att st hst delOk delOk2
    have hr0 : st.rerun = 0 := Nat.le_zero.mp hst
    have hno : retryCond hasRunner st c
        (classify chk ctx c (sandbox (mkRequest ctx c) att)).1 = false := by
      simp [retryCond, hr0]
    rw [judgeCase_not_retry chk sandbox delOk hasRunner ctx c subId att st hno,
      judgeCase_not_retry chk sandbox delOk2 hasRunner ctx c subId att st hno]
    simp
  | succ n ih =>
    intro att st hst delOk delOk2
    by_cases h : retryCond hasRunner st c
        (classify chk ctx c (sandbox (mkRequest ctx c) att)).1 = true
    · have hpos : st.rerun ≠ 0 := by
        simp only [retryCond, Bool.and_eq_true, decide_eq_true_eq] at h
        exact h.1.1.2
      have hle : (JState.mk (st.rerun - 1) st.analysis).rerun ≤ n := by
        simp only []
        omega
      have hrec := ih (att + 1) ⟨st.rerun - 1, st.analysis⟩ hle delOk delOk2
      rw [judgeCase_retry chk sandbox delOk hasRunner ctx c subId att st h,
        judgeCase_retry chk sandbox delOk2 hasRunner ctx c subId att st h]
      refine ⟨hrec.1, hrec.2.1, ?_, hrec.2.2.2.1, ?_⟩
      · simp [hrec.2.2.1]
      · simp [hrec.2.2.2.2]
    · simp only [Bool.not_eq_true] at h
      rw [judgeCase_not_retry chk sandbox delOk hasRunner ctx c subId att st h,
        judgeCase_not_retry chk sandbox delOk2 hasRunner ctx c subId att st h]
      simp

theorem runSeq_analysis_aux (chk : String → CheckerInput → CheckerResult)
    (ctx : StaticCtx) :
    ∀ (invs : List Invocation) (st : JState),
      totalAnalysis (runSeq chk ctx invs st).1
        ≤ (if st.analysis then 0 else 1)
      ∧ (runSeq chk ctx invs st).2.analysis
        = (st.analysis || (totalAnalysis (runSeq chk ctx invs st).1 ≠ 0))
      ∧ (ctx.rejudged = true → totalAnalysis (runSeq chk ctx invs st).1 = 0) := by
  intro invs
  induction invs with
  | nil =>
    intro st
    simp [runSeq, totalAnalysis]
  | cons i rest ih =>
    intro st
    have hout := judgeCase_analysis_aux chk i.sandbox i.delOk i.hasRunner ctx
      i.c i.subtaskId st.rerun 0 st le_rfl
    set out := judgeCase chk i.sandbox i.delOk i.hasRunner ctx i.c
      i.subtaskId 0 st with hdefout
    have hrest := ih out.2.1
    have hseq : runSeq chk ctx (i :: rest) st
        = ((out.1, out.2.2) :: (runSeq chk ctx rest out.2.1).1,
           (runSeq chk ctx rest out.2.1).2) := by
      rw [runSeq]
    rw [hseq]
    have htot : totalAnalysis ((out.1, out.2.2) :: (runSeq chk ctx rest out.2.1).1)
        = out.2.2.analysisCalls + totalAnalysis (runSeq chk ctx rest out.2.1).1 := by
      simp [totalAnalysis]
    rw [htot]
    by_cases hfl : st.analysis = true
    · have hcond : analysisCond ctx st out.1.status = false := by
        simp [analysisCond, hfl]
      have hc0 : out.2.2.analysisCalls = 0 := by
        rw [hout.1, hcond]
        simp
      have hpost : out.2.1.analysis = true := by
        rw [hout.2, hfl]
        simp
      have hB : totalAnalysis (runSeq chk ctx rest out.2.1).1 = 0 := by
        have h1 := hrest.1
        rw [hpost] at h1
        simpa using h1
      refine ⟨?_, ?_, ?_⟩
      · simp [hfl, hc0, hB]
      · have h2 := hrest.2.1
        rw [hpost] at h2
        simp only [Bool.true_or] at h2
        rw [h2, hfl]
        simp
      · intro _
        simp [hc0, hB]
    · simp only [Bool.not_eq_true] at hfl
      by_cases hcall : out.2.2.analysisCalls = 0
      · have hpost : out.2.1.analysis = false := by
          rw [hout.2, hfl, hcall]
          simp
        have h1 := hrest.1
        rw [hpost] at h1
        simp only [Bool.false_eq_true, if_false] at h1
        refine ⟨?_, ?_, ?_⟩
        · simp only [hfl, Bool.false_eq_true, if_false]
          omega
        · have h2 := hrest.2.1
          rw [hpost] at h2
          rw [h2, hcall, hfl]
          simp
        · intro hrj
          simp [hcall, hrest.2.2 hrj]
      · have hone : out.2.2.analysisCalls = 1 := by
          rw [hout.1] at hcall ⊢
          by_cases hc : analysisCond ctx st out.1.status = true
          · simp [hc]
          · simp only [Bool.not_eq_true] at hc
            simp [hc] at hcall
        have hpost : out.2.1.analysis = true := by
          rw [hout.2, hfl, hone]
          simp
        have hB : totalAnalysis (runSeq chk ctx rest out.2.1).1 = 0 := by
          have h1 := hrest.1
          rw [hpost] at h1
          simpa using h1
        refine ⟨?_, ?_, ?_⟩
        · simp [hfl, hone, hB]
        · have h2 := hrest.2.1
          rw [hpost] at h2
          simp only [Bool.true_or] at h2
          rw [h2, hone, hB, hfl]
          simp
        · intro hrj
          have hcond : analysisCond ctx st out.1.status = false := by
            simp [analysisCond, hrj]
          rw [hout.1, hcond] at hone
          simp at hone

/-! ### Concrete fixtures used by witnesses and counterexamples -/

/-- A trivial checker registry: every checker type accepts with score 0. -/
def chk0 : String → CheckerInput → CheckerResult :=
  fun _ _ => ⟨STATUS.STATUS_ACCEPTED, 0, Message.str ""⟩

/-- A checker registry granting full score with a fixed message, for
exercising the checker-result pass-through. -/
def chkFull : String → CheckerInput → CheckerResult :=
  fun _ arg => ⟨STATUS.STATUS_ACCEPTED, arg.score, Message.str "ok"⟩

/-- A concrete judge context. -/
def ctx0 : StaticCtx :=
  { lang := "cc", langConfig := ⟨none, none⟩,
    execute := ⟨"foo", some []⟩, checker := ⟨"checker", some []⟩,
    config := { filename := "foo", checker := "chk.cc",
                checker_type := "default", detail := none },
    rejudged := false, env := [], input := "main" }

/-- The spec's example case: `time=1000ms, memory=256`. -/
def case0 : NormalizedCase := ⟨1, "1.in", "1.out", 1000, 256, 100⟩

/-- The spec's example over-time response:
`status=ACCEPTED, time=1200, memory=100000 bytes`. -/
def resOverTime : RunResult :=
  ⟨STATUS.STATUS_ACCEPTED, none, false, 1200, 100000,
    [("stdout", "f1"), ("stderr", "f2")]⟩

/-- An over-memory response: within time, `memory` above
`256 * 1024` bytes. -/
def resOverMem : RunResult :=
  ⟨STATUS.STATUS_ACCEPTED, none, false, 800, 300000,
    [("stdout", "f1"), ("stderr", "f2")]⟩

/-- An in-limits accepted response. -/
def resOk : RunResult :=
  ⟨STATUS.STATUS_ACCEPTED, none, false, 500, 100000,
    [("stdout", "f1"), ("stderr", "f2")]⟩

/-- A runtime-error response with exit code 0 (present but falsy). -/
def resExitZero : RunResult :=
  ⟨STATUS.STATUS_RUNTIME_ERROR, some 0, false, 500, 100000, []⟩

/-- The spec's example signalled response:
`status=RUNTIME_ERROR, code=11, signalled=true`. -/
def resSignal11 : RunResult :=
  ⟨STATUS.STATUS_RUNTIME_ERROR, some 11, true, 500, 100000, []⟩

/-! ### Claim theorems -/

/-- C1: for every case whose raw sandbox status is ACCEPTED and whose
reported time exceeds the case's time limit, classification yields
TIME_LIMIT_EXCEEDED with score 0 and no checker invocation, and a Case
Runner invocation without a runner callback returns that status and
score with the checker never invoked. -/
theorem C1_accepted_overtime_is_TLE
    (chk : String → CheckerInput → CheckerResult)
    (sandbox : RunRequest → Nat → RunResult) (delOk : String → Bool)
    (ctx : StaticCtx) (c : NormalizedCase) (subId att : Nat) (st : JState)
    (res : RunResult) (hres : sandbox (mkRequest ctx c) att = res)
    (hacc : res.status = STATUS.STATUS_ACCEPTED)
    (ht : res.time > c.time) :
    classify chk ctx c res
      = (STATUS.STATUS_TIME_LIMIT_EXCEEDED, 0, Message.str "", [])
    ∧ (judgeCase chk sandbox delOk false ctx c subId att st).1.status
        = STATUS.STATUS_TIME_LIMIT_EXCEEDED
    ∧ (judgeCase chk sandbox delOk false ctx c subId att st).1.score = 0
    ∧ (judgeCase chk sandbox delOk false ctx c subId att st).2.2.checkerCalls
        = [] := by
  have hcl : classify chk ctx c res
      = (STATUS.STATUS_TIME_LIMIT_EXCEEDED, 0, Message.str "", []) := by
    simp [classify, hacc, ht]
  have hno : retryCond false st c
      (classify chk ctx c (sandbox (mkRequest ctx c) att)).1 = false := by
    simp [retryCond]
  refine ⟨hcl, ?_, ?_, ?_⟩ <;>
    rw [judgeCase_not_retry chk sandbox delOk false ctx c subId att st hno] <;>
    simp [hres, hcl]

/-- C1 witness: the spec's example (`time=1000ms, memory=256`, sandbox
reports `ACCEPTED, time=1200, memory=100000`) gives final status
TIME_LIMIT_EXCEEDED, score 0, checker not called. -/
theorem C1_witness :
    classify chk0 ctx0 case0 resOverTime
      = (STATUS.STATUS_TIME_LIMIT_EXCEEDED, 0, Message.str "", [])
    ∧ (judgeCase chk0 (fun _ _ => resOverTime) (fun _ => true) false ctx0
        case0 7 0 ⟨2, false⟩).1.status
        = STATUS.STATUS_TIME_LIMIT_EXCEEDED
    ∧ (judgeCase chk0 (fun _ _ => resOverTime) (fun _ => true) false ctx0
        case0 7 0 ⟨2, false⟩).1.score = 0
    ∧ (judgeCase chk0 (fun _ _ => resOverTime) (fun _ => true) false ctx0
        case0 7 0 ⟨2, false⟩).2.2.checkerCalls = [] :=
  C1_accepted_overtime_is_TLE chk0 (fun _ _ => resOverTime) (fun _ => true)
    ctx0 case0 7 0 ⟨2, false⟩ resOverTime rfl (by decide) (by decide)

/-- C2: for every case whose raw sandbox status is ACCEPTED, within the
time limit, with reported memory above `c.memory * 1024` bytes,
classification yields MEMORY_LIMIT_EXCEEDED with no checker invocation,
and any Case Runner invocation returns that status (retry never fires
on MEMORY_LIMIT_EXCEEDED). -/
theorem C2_accepted_overmemory_is_MLE
    (chk : String → CheckerInput → CheckerResult)
    (sandbox : RunRequest → Nat → RunResult) (delOk : String → Bool)
    (hasRunner : Bool) (ctx : StaticCtx) (c : NormalizedCase)
    (subId att : Nat) (st : JState)
    (res : RunResult) (hres : sandbox (mkRequest ctx c) att = res)
    (hacc : res.status = STATUS.STATUS_ACCEPTED)
    (ht : ¬ res.time > c.time)
    (hm : res.memory > c.memory * 1024) :
    classify chk ctx c res
      = (STATUS.STATUS_MEMORY_LIMIT_EXCEEDED, 0, Message.str "", [])
    ∧ (judgeCase chk sandbox delOk hasRunner ctx c subId att st).1.status
        = STATUS.STATUS_MEMORY_LIMIT_EXCEEDED
    ∧ (judgeCase chk sandbox delOk hasRunner ctx c subId att st).1.score = 0
    ∧ (judgeCase chk sandbox delOk hasRunner ctx c subId att st).2.2.checkerCalls
        = [] := by
  have hcl : classify chk ctx c res
      = (STATUS.STATUS_MEMORY_LIMIT_EXCEEDED, 0, Message.str "", []) := by
    simp [classify, hacc, ht, hm]
  have hno : retryCond hasRunner st c
      (classify chk ctx c (sandbox (mkRequest ctx c) att)).1 = false := by
    rw [hres, hcl]
    simp [retryCond]
  refine ⟨hcl, ?_, ?_, ?_⟩ <;>
    rw [judgeCase_not_retry chk sandbox delOk hasRunner ctx c subId att st hno] <;>
    simp [hres, hcl]

/-- C2 witness: `time=1000ms, memory=256`, sandbox reports
`ACCEPTED, time=800, memory=300000 bytes` (above `256 * 1024 = 262144`)
— final status MEMORY_LIMIT_EXCEEDED, checker not called. -/
theorem C2_witness :
    classify chk0 ctx0 case0 resOverMem
      = (STATUS.STATUS_MEMORY_LIMIT_EXCEEDED, 0, Message.str "", [])
    ∧ (judgeCase chk0 (fun _ _ => resOverMem) (fun _ => true) true ctx0
        case0 7 0 ⟨2, false⟩).1.status
        = STATUS.STATUS_MEMORY_LIMIT_EXCEEDED
    ∧ (judgeCase chk0 (fun _ _ => resOverMem) (fun _ => true) true ctx0
        case0 7 0 ⟨2, false⟩).1.score = 0
    ∧ (judgeCase chk0 (fun _ _ => resOverMem) (fun _ => true) true ctx0
        case0 7 0 ⟨2, false⟩).2.2.checkerCalls = [] :=
  C2_accepted_overmemory_is_MLE chk0 (fun _ _ => resOverMem) (fun _ => true)
    true ctx0 case0 7 0 ⟨2, false⟩ resOverMem rfl (by decide) (by decide)
    (by decide)

/-- C3: for every case whose raw sandbox status is ACCEPTED and which
passes both limit checks, the checker selected by
`ctx.config.checker_type` is invoked exactly once on the argument
object of lines 37–47, and the resulting status, score and message are
exactly the checker's; an invocation without a runner callback returns
them unchanged. -/
theorem C3_checker_result_passthrough
    (chk : String → CheckerInput → CheckerResult)
    (sandbox : RunRequest → Nat → RunResult) (delOk : String → Bool)
    (ctx : StaticCtx) (c : NormalizedCase) (subId att : Nat) (st : JState)
    (res : RunResult) (hres : sandbox (mkRequest ctx c) att = res)
    (hacc : res.status = STATUS.STATUS_ACCEPTED)
    (ht : ¬ res.time > c.time)
    (hm : ¬ res.memory > c.memory * 1024) :
    classify chk ctx c res
      = ((chk ctx.config.checker_type (mkCheckerInput ctx c res)).status,
         (chk ctx.config.checker_type (mkCheckerInput ctx c res)).score,
         (chk ctx.config.checker_type (mkCheckerInput ctx c res)).message,
         [(ctx.config.checker_type, mkCheckerInput ctx c res)])
    ∧ (judgeCase chk sandbox delOk false ctx c subId att st).1.status
        = (chk ctx.config.checker_type (mkCheckerInput ctx c res)).status
    ∧ (judgeCase chk sandbox delOk false ctx c subId att st).1.score
        = (chk ctx.config.checker_type (mkCheckerInput ctx c res)).score
    ∧ (judgeCase chk sandbox delOk false ctx c subId att st).1.message
        = (chk ctx.config.checker_type (mkCheckerInput ctx c res)).message
    ∧ (judgeCase chk sandbox delOk false ctx c subId att st).2.2.checkerCalls
        = [(ctx.config.checker_type, mkCheckerInput ctx c res)] := by
  have hcl : classify chk ctx c res
      = ((chk ctx.config.checker_type (mkCheckerInput ctx c res)).status,
         (chk ctx.config.checker_type (mkCheckerInput ctx c res)).score,
         (chk ctx.config.checker_type (mkCheckerInput ctx c res)).message,
         [(ctx.config.checker_type, mkCheckerInput ctx c res)]) := by
    simp [classify, hacc, ht, hm]
  have hno : retryCond false st c
      (classify chk ctx c (sandbox (mkRequest ctx c) att)).1 = false := by
    simp [retryCond]
  refine ⟨hcl, ?_, ?_, ?_, ?_⟩ <;>
    rw [judgeCase_not_retry chk sandbox delOk false ctx c subId att st hno] <;>
    simp [hres, hcl]

/-- C3 witness: an in-limits accepted run handed to a full-score
checker returns the checker's ACCEPTED/score/message unchanged, with
exactly one checker call. -/
theorem C3_witness :
    classify chkFull ctx0 case0 resOk
      = ((chkFull ctx0.config.checker_type (mkCheckerInput ctx0 case0 resOk)).status,
         (chkFull ctx0.config.checker_type (mkCheckerInput ctx0 case0 resOk)).score,
         (chkFull ctx0.config.checker_type (mkCheckerInput ctx0 case0 resOk)).message,
         [(ctx0.config.checker_type, mkCheckerInput ctx0 case0 resOk)])
    ∧ (judgeCase chkFull (fun _ _ => resOk) (fun _ => true) false ctx0
        case0 7 0 ⟨2, false⟩).1.status
        = (chkFull ctx0.config.checker_type (mkCheckerInput ctx0 case0 resOk)).status
    ∧ (judgeCase chkFull (fun _ _ => resOk) (fun _ => true) false ctx0
        case0 7 0 ⟨2, false⟩).1.score
        = (chkFull ctx0.config.checker_type (mkCheckerInput ctx0 case0 resOk)).score
    ∧ (judgeCase chkFull (fun _ _ => resOk) (fun _ => true) false ctx0
        case0 7 0 ⟨2, false⟩).1.message
        = (chkFull ctx0.config.checker_type (mkCheckerInput ctx0 case0 resOk)).message
    ∧ (judgeCase chkFull (fun _ _ => resOk) (fun _ => true) false ctx0
        case0 7 0 ⟨2, false⟩).2.2.checkerCalls
        = [(ctx0.config.checker_type, mkCheckerInput ctx0 case0 resOk)] :=
  C3_checker_result_passthrough chkFull (fun _ _ => resOk) (fun _ => true)
    ctx0 case0 7 0 ⟨2, false⟩ resOk rfl (by decide) (by decide) (by decide)

/-- A case with `time=2000ms`, eligible for retry (`time <= 5000`). -/
def case1 : NormalizedCase := ⟨2, "2.in", "2.out", 2000, 256, 100⟩

/-- An accepted-but-slow response for `case1` (2500 ms > 2000 ms). -/
def resSlow : RunResult :=
  ⟨STATUS.STATUS_ACCEPTED, none, false, 2500, 1000, []⟩

/-- An in-limits accepted response for `case1`. -/
def resFast : RunResult :=
  ⟨STATUS.STATUS_ACCEPTED, none, false, 900, 1000, []⟩

/-- A sandbox oracle whose first attempt times out and whose later
attempts pass. -/
def sbRetry : RunRequest → Nat → RunResult :=
  fun _ att => if att = 0 then resSlow else resFast

/-- C4: retry fires iff a runner was supplied, the rerun budget is
positive, the case's time limit is at most 5000 ms, and the
post-classification status is TIME_LIMIT_EXCEEDED; when it fires the
budget passed to the re-invocation is decremented by exactly one and
the re-invocation's result and final state are returned; otherwise the
budget is unchanged and the current attempt's result is returned. -/
theorem C4_retry_policy (chk : String → CheckerInput → CheckerResult)
    (sandbox : RunRequest → Nat → RunResult) (delOk : String → Bool)
    (hasRunner : Bool) (ctx : StaticCtx) (c : NormalizedCase)
    (subId att : Nat) (st : JState) :
    ((hasRunner = true ∧ 0 < st.rerun ∧ c.time ≤ 5000
        ∧ (classify chk ctx c (sandbox (mkRequest ctx c) att)).1
            = STATUS.STATUS_TIME_LIMIT_EXCEEDED) →
      (judgeCase chk sandbox delOk hasRunner ctx c subId att st).1
        = (judgeCase chk sandbox delOk hasRunner ctx c subId (att + 1)
            ⟨st.rerun - 1, st.analysis⟩).1
      ∧ (judgeCase chk sandbox delOk hasRunner ctx c subId att st).2.1
        = (judgeCase chk sandbox delOk hasRunner ctx c subId (att + 1)
            ⟨st.rerun - 1, st.analysis⟩).2.1)
    ∧ (¬ (hasRunner = true ∧ 0 < st.rerun ∧ c.time ≤ 5000
        ∧ (classify chk ctx c (sandbox (mkRequest ctx c) att)).1
            = STATUS.STATUS_TIME_LIMIT_EXCEEDED) →
      (judgeCase chk sandbox delOk hasRunner ctx c subId att st).2.1.rerun
        = st.rerun
      ∧ (judgeCase chk sandbox delOk hasRunner ctx c subId att st).1
        = { id := c.id, subtaskId := subId,
            status := (classify chk ctx c (sandbox (mkRequest ctx c) att)).1,
            score := (classify chk ctx c (sandbox (mkRequest ctx c) att)).2.1,
            time := (sandbox (mkRequest ctx c) att).time,
            memory := (sandbox (mkRequest ctx c) att).memory,
            message := (classify chk ctx c (sandbox (mkRequest ctx c) att)).2.2.1 }) := by
  constructor
  · intro hfire
    have hyes : retryCond hasRunner st c
        (classify chk ctx c (sandbox (mkRequest ctx c) att)).1 = true := by
      simp only [retryCond, Bool.and_eq_true, decide_eq_true_eq]
      exact ⟨⟨⟨hfire.1, Nat.pos_iff_ne_zero.mp hfire.2.1⟩, hfire.2.2.1⟩,
        hfire.2.2.2⟩
    rw [judgeCase_retry chk sandbox delOk hasRunner ctx c subId att st hyes]
    exact ⟨rfl, rfl⟩
  · intro hfail
    have hno : retryCond hasRunner st c
        (classify chk ctx c (sandbox (mkRequest ctx c) att)).1 = false := by
      cases hb : retryCond hasRunner st c
          (classify chk ctx c (sandbox (mkRequest ctx c) att)).1 with
      | false => rfl
      | true =>
        exfalso
        apply hfail
        simp only [retryCond, Bool.and_eq_true, decide_eq_true_eq] at hb
        exact ⟨hb.1.1.1, Nat.pos_of_ne_zero hb.1.1.2, hb.1.2, hb.2⟩
    rw [judgeCase_not_retry chk sandbox delOk hasRunner ctx c subId att st hno]
    exact ⟨rfl, rfl⟩

/-- C4 witness: with a runner, budget 2, `case1.time = 2000 ≤ 5000` and
a first attempt classified TIME_LIMIT_EXCEEDED, the invocation returns
the re-invocation's result under budget 1; without a runner the budget
is untouched and the current TIME_LIMIT_EXCEEDED attempt is returned. -/
theorem C4_witness :
    ((judgeCase chk0 sbRetry (fun _ => true) true ctx0 case1 7 0 ⟨2, false⟩).1
      = (judgeCase chk0 sbRetry (fun _ => true) true ctx0 case1 7 1 ⟨1, false⟩).1
    ∧ (judgeCase chk0 sbRetry (fun _ => true) true ctx0 case1 7 0 ⟨2, false⟩).2.1
      = (judgeCase chk0 sbRetry (fun _ => true) true ctx0 case1 7 1 ⟨1, false⟩).2.1)
    ∧ ((judgeCase chk0 sbRetry (fun _ => true) false ctx0 case1 7 0
          ⟨2, false⟩).2.1.rerun = 2
    ∧ (judgeCase chk0 sbRetry (fun _ => true) false ctx0 case1 7 0 ⟨2, false⟩).1
      = { id := case1.id, subtaskId := 7,
          status := (classify chk0 ctx0 case1 (sbRetry (mkRequest ctx0 case1) 0)).1,
          score := (classify chk0 ctx0 case1 (sbRetry (mkRequest ctx0 case1) 0)).2.1,
          time := (sbRetry (mkRequest ctx0 case1) 0).time,
          memory := (sbRetry (mkRequest ctx0 case1) 0).memory,
          message := (classify chk0 ctx0 case1 (sbRetry (mkRequest ctx0 case1) 0)).2.2.1 }) :=
  ⟨(C4_retry_policy chk0 sbRetry (fun _ => true) true ctx0 case1 7 0
      ⟨2, false⟩).1 ⟨rfl, by decide, by decide, by decide⟩,
   (C4_retry_policy chk0 sbRetry (fun _ => true) false ctx0 case1 7 0
      ⟨2, false⟩).2 (by intro h; exact absurd h.1 (by decide))⟩

/-- C5: across any sequence of Case Runner invocations for one
submission starting with the analysis flag unset, `runAnalysis` is
invoked at most once, never on a rejudge request; per invocation it is
invoked exactly when the request is not a rejudge, the flag is unset
and the final status is WRONG_ANSWER or RUNTIME_ERROR, and any
invocation that calls it leaves the flag set. -/
theorem C5_analysis_at_most_once (chk : String → CheckerInput → CheckerResult)
    (ctx : StaticCtx) (invs : List Invocation) (st : JState)
    (hst : st.analysis = false) :
    totalAnalysis (runSeq chk ctx invs st).1 ≤ 1
    ∧ (ctx.rejudged = true → totalAnalysis (runSeq chk ctx invs st).1 = 0)
    ∧ ∀ (sandbox : RunRequest → Nat → RunResult) (delOk : String → Bool)
        (hasRunner : Bool) (c : NormalizedCase) (subId att : Nat)
        (st2 : JState),
        (judgeCase chk sandbox delOk hasRunner ctx c subId att st2).2.2.analysisCalls
          = (if ctx.rejudged = false ∧ st2.analysis = false
              ∧ ((judgeCase chk sandbox delOk hasRunner ctx c subId att st2).1.status
                    = STATUS.STATUS_WRONG_ANSWER
                 ∨ (judgeCase chk sandbox delOk hasRunner ctx c subId att st2).1.status
                    = STATUS.STATUS_RUNTIME_ERROR)
             then 1 else 0)
        ∧ ((judgeCase chk sandbox delOk hasRunner ctx c subId att st2).2.2.analysisCalls
              ≠ 0 →
            (judgeCase chk sandbox delOk hasRunner ctx c subId att st2).2.1.analysis
              = true) := by
  have hseq := runSeq_analysis_aux chk ctx invs st
  refine ⟨?_, hseq.2.2, ?_⟩
  · have h := hseq.1
    rw [hst] at h
    simpa using h
  · intro sandbox delOk hasRunner c subId att st2
    have h := judgeCase_analysis_aux chk sandbox delOk hasRunner ctx c subId
      st2.rerun att st2 le_rfl
    have hiff : (analysisCond ctx st2
        (judgeCase chk sandbox delOk hasRunner ctx c subId att st2).1.status = true)
        ↔ (ctx.rejudged = false ∧ st2.analysis = false
            ∧ ((judgeCase chk sandbox delOk hasRunner ctx c subId att st2).1.status
                  = STATUS.STATUS_WRONG_ANSWER
               ∨ (judgeCase chk sandbox delOk hasRunner ctx c subId att st2).1.status
                  = STATUS.STATUS_RUNTIME_ERROR)) := by
      simp [analysisCond, Bool.not_eq_true', and_assoc]
    constructor
    · rw [h.1]
      exact if_congr hiff rfl rfl
    · intro hne
      rw [h.2]
      simp [hne]

/-- A wrong-answer response: the raw status passes through and
qualifies for analysis. -/
def resWA : RunResult :=
  ⟨STATUS.STATUS_WRONG_ANSWER, none, false, 100, 100, []⟩

/-- An invocation whose run is classified WRONG_ANSWER. -/
def invWA : Invocation :=
  ⟨case0, 3, fun _ _ => resWA, fun _ => true, false⟩

/-- C5 witness: two consecutive qualifying (WRONG_ANSWER) invocations
starting with the flag unset trigger analysis at most once. -/
theorem C5_witness :
    totalAnalysis (runSeq chk0 ctx0 [invWA, invWA] ⟨0, false⟩).1 ≤ 1 :=
  (C5_analysis_at_most_once chk0 ctx0 [invWA, invWA] ⟨0, false⟩ rfl).1

/-- C6: for every Case Runner invocation the attempted deletions are
exactly the values of the consumed sandbox responses' `fileIds` maps,
each once and in order (for the retry-free invocation, exactly this
response's values, whatever the classification outcome); and deletion
outcomes never change the returned CaseResult. -/
theorem C6_cleanup (chk : String → CheckerInput → CheckerResult)
    (sandbox : RunRequest → Nat → RunResult) (delOk : String → Bool)
    (hasRunner : Bool) (ctx : StaticCtx) (c : NormalizedCase)
    (subId att : Nat) (st : JState) :
    (∃ k, 0 < k
      ∧ (judgeCase chk sandbox delOk hasRunner ctx c subId att st).2.2.deleted
        = deletedOfAttempts sandbox delOk (mkRequest ctx c) att k)
    ∧ (hasRunner = false →
      (judgeCase chk sandbox delOk hasRunner ctx c subId att st).2.2.deleted
        = ((sandbox (mkRequest ctx c) att).fileIds.map Prod.snd).map
            (fun id => (id, delOk id)))
    ∧ ∀ delOk2 : String → Bool,
      (judgeCase chk sandbox delOk hasRunner ctx c subId att st).1
        = (judgeCase chk sandbox delOk2 hasRunner ctx c subId att st).1 := by
  refine ⟨judgeCase_deleted_aux chk sandbox delOk hasRunner ctx c subId
    st.rerun att st le_rfl, ?_, ?_⟩
  · intro hrun
    subst hrun
    have hno : retryCond false st c
        (classify chk ctx c (sandbox (mkRequest ctx c) att)).1 = false := by
      simp [retryCond]
    rw [judgeCase_not_retry chk sandbox delOk false ctx c subId att st hno]
  · intro delOk2
    exact (judgeCase_delOk_aux chk sandbox hasRunner ctx c subId st.rerun att
      st le_rfl delOk delOk2).1

/-- C6 witness: the over-time run's two cached files are both attempted
for deletion exactly once, and flipping every deletion to a failure
leaves the returned CaseResult unchanged. -/
theorem C6_witness :
    (∃ k, 0 < k
      ∧ (judgeCase chk0 (fun _ _ => resOverTime) (fun _ => true) false ctx0
          case0 7 0 ⟨2, false⟩).2.2.deleted
        = deletedOfAttempts (fun _ _ => resOverTime) (fun _ => true)
            (mkRequest ctx0 case0) 0 k)
    ∧ (judgeCase chk0 (fun _ _ => resOverTime) (fun _ => true) false ctx0
        case0 7 0 ⟨2, false⟩).2.2.deleted = [("f1", true), ("f2", true)]
    ∧ (judgeCase chk0 (fun _ _ => resOverTime) (fun _ => true) false ctx0
        case0 7 0 ⟨2, false⟩).1
      = (judgeCase chk0 (fun _ _ => resOverTime) (fun _ => false) false ctx0
          case0 7 0 ⟨2, false⟩).1 := by
  have h := C6_cleanup chk0 (fun _ _ => resOverTime) (fun _ => true) false
    ctx0 case0 7 0 ⟨2, false⟩
  refine ⟨h.1, ?_, h.2.2 (fun _ => false)⟩
  rw [h.2.1 rfl]
  decide

/-- C7 counterexample: a RUNTIME_ERROR run with the exit code present
but equal to 0 (and not signalled) falls under the claim's "otherwise"
branch, which predicts the templated exit-code message; the code leaves
the message empty because `code` is tested for truthiness. -/
theorem C7_counterexample :
    resExitZero.status = STATUS.STATUS_RUNTIME_ERROR
    ∧ resExitZero.code = some 0
    ∧ resExitZero.signalled = false
    ∧ (classify chk0 ctx0 case0 resExitZero).2.2.1 = Message.str ""
    ∧ (classify chk0 ctx0 case0 resExitZero).2.2.1
        ≠ Message.templated "Your program returned {0}." [0] := by
  decide

/-- C7 (amended): for every RUNTIME_ERROR run with a *nonzero* exit
code present, a signal number (`code < 32`) from a signalled process
yields the Signal Table entry for that code as the message, and any
other nonzero code yields the templated exit-code message; score stays
0, the status stays RUNTIME_ERROR and no checker runs. -/
theorem C7_runtime_error_messages (chk : String → CheckerInput → CheckerResult)
    (ctx : StaticCtx) (c : NormalizedCase) (res : RunResult) (v : Int)
    (hre : res.status = STATUS.STATUS_RUNTIME_ERROR)
    (hcode : res.code = some v) (hv : v ≠ 0) :
    ((v < 32 ∧ res.signalled = true) →
      classify chk ctx c res
        = (STATUS.STATUS_RUNTIME_ERROR, 0, Message.str (signals v), []))
    ∧ (¬ (v < 32 ∧ res.signalled = true) →
      classify chk ctx c res
        = (STATUS.STATUS_RUNTIME_ERROR, 0,
           Message.templated "Your program returned {0}." [v], [])) := by
  constructor
  · intro hsig
    simp [classify, hre, codeTruthy, hcode, hv, hsig]
  · intro hnsig
    simp only [classify, hre, codeTruthy, hcode]
    simp [hv, hnsig]

/-- C7 witness: the spec's example — `status=RUNTIME_ERROR, code=11,
signalled=true` — produces the Signal Table entry for signal 11, the
segmentation-fault text. -/
theorem C7_witness :
    classify chk0 ctx0 case0 resSignal11
      = (STATUS.STATUS_RUNTIME_ERROR, 0,
         Message.str "Segmentation fault", []) := by
  have h := (C7_runtime_error_messages chk0 ctx0 case0 resSignal11 11
    rfl rfl (by decide)).1 (by decide)
  rw [h]
  decide

/-- C8: the final status is never better than the raw one — a raw
ACCEPTED run is classified TIME_LIMIT_EXCEEDED, MEMORY_LIMIT_EXCEEDED
or handed to the checker whose verdict it takes, while every raw
non-ACCEPTED status passes through unchanged with score 0 and no
checker call, and with an empty message unless it is RUNTIME_ERROR with
a truthy exit code. -/
theorem C8_no_upgrade (chk : String → CheckerInput → CheckerResult)
    (ctx : StaticCtx) (c : NormalizedCase) (res : RunResult) :
    (res.status = STATUS.STATUS_ACCEPTED →
      (classify chk ctx c res).1 = STATUS.STATUS_TIME_LIMIT_EXCEEDED
      ∨ (classify chk ctx c res).1 = STATUS.STATUS_MEMORY_LIMIT_EXCEEDED
      ∨ classify chk ctx c res
          = ((chk ctx.config.checker_type (mkCheckerInput ctx c res)).status,
             (chk ctx.config.checker_type (mkCheckerInput ctx c res)).score,
             (chk ctx.config.checker_type (mkCheckerInput ctx c res)).message,
             [(ctx.config.checker_type, mkCheckerInput ctx c res)]))
    ∧ (res.status ≠ STATUS.STATUS_ACCEPTED →
      (classify chk ctx c res).1 = res.status
      ∧ (classify chk ctx c res).2.1 = 0
      ∧ (classify chk ctx c res).2.2.2 = [])
    ∧ (res.status ≠ STATUS.STATUS_ACCEPTED →
      ¬ (res.status = STATUS.STATUS_RUNTIME_ERROR
          ∧ codeTruthy res.code = true) →
      (classify chk ctx c res).2.2.1 = Message.str "") := by
  refine ⟨?_, ?_, ?_⟩
  · intro hacc
    by_cases ht : res.time > c.time
    · left
      simp [classify, hacc, ht]
    · by_cases hm : res.memory > c.memory * 1024
      · right
        left
        simp [classify, hacc, ht, hm]
      · right
        right
        simp [classify, hacc, ht, hm]
  · intro hne
    by_cases h2 : res.status = STATUS.STATUS_RUNTIME_ERROR
        ∧ codeTruthy res.code = true
    · simp only [classify, if_neg hne, if_pos h2]
      refine ⟨?_, ?_, ?_⟩ <;> split <;> rfl
    · simp [classify, if_neg hne, if_neg h2]
  · intro hne h2
    simp only [classify, if_neg hne, if_neg h2]

/-- A raw status outside the enumerated ones. -/
def resOther : RunResult :=
  ⟨STATUS.other 42, some 3, true, 100, 100, []⟩

/-- C8 witness: a raw status that is neither ACCEPTED nor
RUNTIME_ERROR-with-code passes through unchanged, score 0, no checker
call, empty message. -/
theorem C8_witness :
    ((classify chk0 ctx0 case0 resOther).1 = resOther.status
      ∧ (classify chk0 ctx0 case0 resOther).2.1 = 0
      ∧ (classify chk0 ctx0 case0 resOther).2.2.2 = [])
    ∧ (classify chk0 ctx0 case0 resOther).2.2.1 = Message.str "" :=
  ⟨(C8_no_upgrade chk0 ctx0 case0 resOther).2.1 (by decide),
   (C8_no_upgrade chk0 ctx0 case0 resOther).2.2 (by decide) (by decide)⟩

/-- C9: the compile stage produces the submission executable via
`compile(lang, code)` and the checker executable via
`compileLocalFile('checker', config.checker, config.checker_type)`;
both must succeed, they are stored as `ctx.execute` and `ctx.checker`,
and only then does the flow run the registered Case Runner callback
over the scheduled cases; either compile failure aborts the flow. -/
theorem C9_compile_wiring
    (f : String → String → Except String Executable)
    (g : String → String → String → Except String Executable)
    (chk : String → CheckerInput → CheckerResult) (init : JudgeInit)
    (invs : List Invocation) (st : JState) :
    (∀ e k, f init.lang init.code = Except.ok e →
      g "checker" init.config.checker init.config.checker_type
        = Except.ok k →
      compileStage f g init = Except.ok (e, k)
      ∧ (mkCtx init (e, k)).execute = e
      ∧ (mkCtx init (e, k)).checker = k
      ∧ judge f g chk init invs st
          = Except.ok (runSeq chk (mkCtx init (e, k)) invs st))
    ∧ (∀ m, f init.lang init.code = Except.error m →
      judge f g chk init invs st = Except.error m)
    ∧ (∀ e m, f init.lang init.code = Except.ok e →
      g "checker" init.config.checker init.config.checker_type
        = Except.error m →
      judge f g chk init invs st = Except.error m) := by
  refine ⟨?_, ?_, ?_⟩
  · intro e k h1 h2
    have hcs : compileStage f g init = Except.ok (e, k) := by
      simp [compileStage, h1, h2]
    exact ⟨hcs, rfl, rfl, by simp [judge, runFlow, hcs]⟩
  · intro m h1
    have hcs : compileStage f g init = Except.error m := by
      simp [compileStage, h1]
    simp [judge, runFlow, hcs]
  · intro e m h1 h2
    have hcs : compileStage f g init = Except.error m := by
      simp [compileStage, h1, h2]
    simp [judge, runFlow, hcs]

/-- A submission compiler that always succeeds. -/
def compileOk : String → String → Except String Executable :=
  fun _ _ => Except.ok ⟨"exe", none⟩

/-- A local-file compiler that always succeeds. -/
def compileLocalOk : String → String → String → Except String Executable :=
  fun _ _ _ => Except.ok ⟨"chkexe", none⟩

/-- Concrete per-submission inputs. -/
def init0 : JudgeInit :=
  ⟨"cc", "main", ⟨none, none⟩, ctx0.config, false, [], "main"⟩

/-- C9 witness: with both compilations succeeding, the compile stage
yields the executable pair and `judge` runs the flow over the scheduled
invocations with that pair installed. -/
theorem C9_witness :
    compileStage compileOk compileLocalOk init0
      = Except.ok (⟨"exe", none⟩, ⟨"chkexe", none⟩)
    ∧ judge compileOk compileLocalOk chk0 init0 [invWA] ⟨2, false⟩
      = Except.ok (runSeq chk0
          (mkCtx init0 (⟨"exe", none⟩, ⟨"chkexe", none⟩)) [invWA]
          ⟨2, false⟩) := by
  have h := (C9_compile_wiring compileOk compileLocalOk chk0 init0 [invWA]
    ⟨2, false⟩).1 ⟨"exe", none⟩ ⟨"chkexe", none⟩ rfl rfl
  exact ⟨h.1, h.2.2.2⟩

/-- C10: a RUNTIME_ERROR run whose exit code is absent or 0 keeps the
empty message — neither the Signal Table lookup nor the templated
exit-code message is produced, because the exit code is tested for
truthiness. -/
theorem C10_falsy_code_empty_message
    (chk : String → CheckerInput → CheckerResult) (ctx : StaticCtx)
    (c : NormalizedCase) (res : RunResult)
    (hre : res.status = STATUS.STATUS_RUNTIME_ERROR)
    (hcode : res.code = none ∨ res.code = some 0) :
    classify chk ctx c res
      = (STATUS.STATUS_RUNTIME_ERROR, 0, Message.str "", []) := by
  have hct : codeTruthy res.code = false := by
    rcases hcode with h | h <;> simp [codeTruthy, h]
  simp [classify, hre, hct]

/-- C10 witness: a RUNTIME_ERROR run with exit code 0 produces the
empty message. -/
theorem C10_witness :
    classify chk0 ctx0 case0 resExitZero
      = (STATUS.STATUS_RUNTIME_ERROR, 0, Message.str "", []) :=
  C10_falsy_code_empty_message chk0 ctx0 case0 resExitZero rfl (Or.inr rfl)

end Hydro
